import Mathlib

/-!
Shallow embedding of the Wealth-Management-System core
(`database_manager.py` and the buy-asset workflow of `app.py`).

Monetary amounts and quantities are Python `Decimal` values; all the
operations performed here (addition, subtraction, multiplication,
comparison) are exact in `Decimal`, so they are embedded as `ℚ`.

The relational store is embedded as lists of rows, one list per table.
SQL filtering (`WHERE user_id = %s`) becomes `List.filter`; joining on a
primary key (`JOIN assets a ON i.asset_id = a.asset_id`) becomes a
first-match lookup `List.find?`; `SUM(...)` over a result set becomes a
list sum that is `NULL` (`none`) when the result set is empty, matching
MySQL's `SUM`.  An `UPDATE ... WHERE id = %s` becomes a `List.map` that
rewrites the matching rows, and its `rowcount > 0` result is embedded as
"a row with that id exists".  `lastrowid` of an `INSERT` is embedded with
an explicit auto-increment counter carried in the state.

Each statement in `execute_query` runs on its own connection and is
committed on its own (`connection.commit()` per call); a database error
rolls back only that single statement and re-raises.  Workflow code in
`app.py` therefore sees every successful statement as already durable.
Database errors are environment events; the buy workflow is parameterised
over a `Faults` record saying which of its store calls raises.
-/

namespace WMS

/-- Row of the `users` table. -/
structure UserRow where
  user_id : Nat
  username : String
  role : String
  deriving Repr, DecidableEq

/-- Row of the `accounts` table. -/
structure Account where
  account_id : Nat
  user_id : Nat
  account_name : String
  account_type : String
  current_balance : ℚ
  currency : String
  deriving Repr, DecidableEq

/-- Row of the `portfolios` table. -/
structure Portfolio where
  portfolio_id : Nat
  user_id : Nat
  portfolio_name : String
  description : Option String
  deriving Repr, DecidableEq

/-- Row of the `asset_types` table (categories such as Stock, Crypto). -/
structure AssetType where
  asset_type_id : Nat
  type_name : String
  description : Option String
  deriving Repr, DecidableEq

/-- Row of the `assets` table (admin-managed tradable instruments). -/
structure Asset where
  asset_id : Nat
  name : String
  unit_price : ℚ
  unit_type : String
  deriving Repr, DecidableEq

/-- Row of the `investments` table.  `current_value` is not a column:
it is computed at read time by `get_investments_by_user`. -/
structure Investment where
  investment_id : Nat
  user_id : Nat
  portfolio_id : Nat
  asset_category_id : Nat
  asset_id : Nat
  investment_name : String
  symbol : Option String
  initial_investment_amount : ℚ
  purchase_date : String
  quantity : ℚ
  currency : String
  notes : Option String
  deriving Repr, DecidableEq

/-- Row of the `transactions` table. -/
structure Transaction where
  transaction_id : Nat
  user_id : Nat
  account_id : Option Nat
  investment_id : Option Nat
  asset_id : Option Nat
  transaction_type : String
  amount : ℚ
  quantity : ℚ
  unit_price_at_transaction : ℚ
  description : String
  deriving Repr, DecidableEq

/-- The whole relational store, plus the auto-increment counters that
produce `lastrowid` for the two tables the buy workflow inserts into. -/
structure DBState where
  users : List UserRow
  accounts : List Account
  portfolios : List Portfolio
  asset_types : List AssetType
  assets : List Asset
  investments : List Investment
  transactions : List Transaction
  nextInvestmentId : Nat
  nextTransactionId : Nat
  deriving Repr, DecidableEq

/-! ### database_manager.py -/

/-- `UPDATE accounts SET current_balance = %s WHERE account_id = %s`.
Returns `rowcount > 0` (a row with that id exists) and the new store. -/
def update_account_balance (account_id : Nat) (new_balance : ℚ)
    (st : DBState) : Bool × DBState :=
  (st.accounts.any (fun a => a.account_id == account_id),
   { st with accounts := st.accounts.map (fun a =>
       if a.account_id == account_id then
         { a with current_balance := new_balance } else a) })

/-- `UPDATE assets SET unit_price = %s WHERE asset_id = %s`. -/
def update_asset_price (asset_id : Nat) (new_unit_price : ℚ)
    (st : DBState) : Bool × DBState :=
  (st.assets.any (fun a => a.asset_id == asset_id),
   { st with assets := st.assets.map (fun a =>
       if a.asset_id == asset_id then
         { a with unit_price := new_unit_price } else a) })

/-- `update_portfolio(portfolio_id, portfolio_name=None, description=None)`:
collects the non-`None` fields into the `SET` clause; with no updates it
returns `False` without issuing any query. -/
def update_portfolio (portfolio_id : Nat) (portfolio_name : Option String)
    (description : Option String) (st : DBState) : Bool × DBState :=
  if portfolio_name.isNone && description.isNone then
    (false, st)
  else
    (st.portfolios.any (fun p => p.portfolio_id == portfolio_id),
     { st with portfolios := st.portfolios.map (fun p =>
         if p.portfolio_id == portfolio_id then
           { p with
             portfolio_name := portfolio_name.getD p.portfolio_name,
             description := match description with
               | some d => some d
               | none => p.description } else p) })

/-- `update_investment(investment_id, ...)` with its ten optional fields:
collects the non-`None` fields into the `SET` clause; with no updates it
returns `False` without issuing any query. -/
def update_investment (investment_id : Nat)
    (investment_name : Option String) (symbol : Option String)
    (initial_investment_amount : Option ℚ) (purchase_date : Option String)
    (quantity : Option ℚ) (currency : Option String)
    (notes : Option String) (portfolio_id : Option Nat)
    (asset_category_id : Option Nat) (asset_id : Option Nat)
    (st : DBState) : Bool × DBState :=
  if investment_name.isNone && symbol.isNone &&
     initial_investment_amount.isNone && purchase_date.isNone &&
     quantity.isNone && currency.isNone && notes.isNone &&
     portfolio_id.isNone && asset_category_id.isNone && asset_id.isNone then
    (false, st)
  else
    (st.investments.any (fun i => i.investment_id == investment_id),
     { st with investments := st.investments.map (fun i =>
         if i.investment_id == investment_id then
           { i with
             investment_name := investment_name.getD i.investment_name,
             symbol := match symbol with
               | some s => some s
               | none => i.symbol,
             initial_investment_amount :=
               initial_investment_amount.getD i.initial_investment_amount,
             purchase_date := purchase_date.getD i.purchase_date,
             quantity := quantity.getD i.quantity,
             currency := currency.getD i.currency,
             notes := match notes with
               | some n => some n
               | none => i.notes,
             portfolio_id := portfolio_id.getD i.portfolio_id,
             asset_category_id := asset_category_id.getD i.asset_category_id,
             asset_id := asset_id.getD i.asset_id } else i) })

/-- `INSERT INTO investments (...)`: appends the row and returns
`lastrowid`. -/
def add_investment (user_id portfolio_id asset_category_id asset_id : Nat)
    (investment_name : String) (symbol : Option String)
    (initial_investment_amount : ℚ) (purchase_date : String)
    (quantity : ℚ) (currency : String) (notes : Option String)
    (st : DBState) : Nat × DBState :=
  (st.nextInvestmentId,
   { st with
     investments := st.investments ++
       [{ investment_id := st.nextInvestmentId, user_id, portfolio_id,
          asset_category_id, asset_id, investment_name, symbol,
          initial_investment_amount, purchase_date, quantity, currency,
          notes }],
     nextInvestmentId := st.nextInvestmentId + 1 })

/-- `INSERT INTO transactions (...)`: appends the row and returns
`lastrowid`. -/
def add_transaction (user_id : Nat) (account_id : Option Nat)
    (investment_id : Option Nat) (asset_id : Option Nat)
    (transaction_type : String) (amount : ℚ) (quantity : ℚ)
    (unit_price_at_transaction : ℚ) (description : String)
    (st : DBState) : Nat × DBState :=
  (st.nextTransactionId,
   { st with
     transactions := st.transactions ++
       [{ transaction_id := st.nextTransactionId, user_id, account_id,
          investment_id, asset_id, transaction_type, amount, quantity,
          unit_price_at_transaction, description }],
     nextTransactionId := st.nextTransactionId + 1 })

/-- `SELECT * FROM accounts WHERE user_id = %s`. -/
def get_accounts_by_user (user_id : Nat) (st : DBState) : List Account :=
  st.accounts.filter (fun a => a.user_id == user_id)

/-- `SELECT * FROM portfolios WHERE user_id = %s`. -/
def get_portfolios_by_user (user_id : Nat) (st : DBState) : List Portfolio :=
  st.portfolios.filter (fun p => p.user_id == user_id)

/-- One result row of `get_investments_by_user` /
`get_all_investments_detailed`: the stored investment columns joined with
the portfolio, category, and asset rows, with `current_unit_price` taken
from the `assets` table and `current_value` computed in the query as
`i.quantity * a.unit_price`. -/
structure InvestmentRow where
  investment_id : Nat
  user_id : Nat
  portfolio_id : Nat
  portfolio_name : String
  asset_category_id : Nat
  asset_category_name : String
  asset_id : Nat
  asset_name : String
  current_unit_price : ℚ
  unit_type : String
  investment_name : String
  symbol : Option String
  initial_investment_amount : ℚ
  purchase_date : String
  quantity : ℚ
  current_value : ℚ
  currency : String
  notes : Option String
  deriving Repr, DecidableEq

/-- The `SELECT ... FROM investments i JOIN portfolios p ... JOIN
asset_types at ... JOIN assets a ... WHERE i.user_id = %s` query of
`get_investments_by_user`: inner joins on primary keys, embedded as
first-match lookups; a row whose portfolio, category or asset is missing
drops out of the result. -/
def get_investments_by_user (user_id : Nat) (st : DBState) :
    List InvestmentRow :=
  (st.investments.filter (fun i => i.user_id == user_id)).filterMap
    (fun i =>
      match st.portfolios.find? (fun p => p.portfolio_id == i.portfolio_id),
            st.asset_types.find?
              (fun t => t.asset_type_id == i.asset_category_id),
            st.assets.find? (fun a => a.asset_id == i.asset_id) with
      | some p, some t, some a =>
        some { investment_id := i.investment_id, user_id := i.user_id,
               portfolio_id := i.portfolio_id,
               portfolio_name := p.portfolio_name,
               asset_category_id := i.asset_category_id,
               asset_category_name := t.type_name,
               asset_id := i.asset_id, asset_name := a.name,
               current_unit_price := a.unit_price,
               unit_type := a.unit_type,
               investment_name := i.investment_name, symbol := i.symbol,
               initial_investment_amount := i.initial_investment_amount,
               purchase_date := i.purchase_date, quantity := i.quantity,
               current_value := i.quantity * a.unit_price,
               currency := i.currency, notes := i.notes }
      | _, _, _ => none)

/-- MySQL `SUM(expr)` over a result set: `NULL` when the set is empty.
(The summed columns are never `NULL` here.) -/
def sqlSum (l : List ℚ) : Option ℚ :=
  if l.isEmpty then none else some l.sum

/-- Result of `get_portfolio_summary`. -/
structure PortfolioSummary where
  total_account_balance : ℚ
  total_investment_value : ℚ
  total_portfolio_value : ℚ
  deriving Repr, DecidableEq

/-- `get_portfolio_summary(user_id)`: sums account balances and the
dynamically computed `i.quantity * a.unit_price` over the user's
investments (joined with `assets` on the primary key), replacing a
`NULL` sum by `Decimal 0.00`, and adds the two totals. -/
def get_portfolio_summary (user_id : Nat) (st : DBState) :
    PortfolioSummary :=
  let total_account_balance :=
    (sqlSum ((st.accounts.filter (fun a => a.user_id == user_id)).map
      (fun a => a.current_balance))).getD 0
  let total_investment_value :=
    (sqlSum ((st.investments.filter (fun i => i.user_id == user_id)).filterMap
      (fun i => (st.assets.find? (fun a => a.asset_id == i.asset_id)).map
        (fun a => i.quantity * a.unit_price)))).getD 0
  { total_account_balance, total_investment_value,
    total_portfolio_value := total_account_balance + total_investment_value }

/-- `delete_user_and_all_data(user_id)`: inside one store transaction,
deletes the user's transactions, investments, accounts, and portfolios,
then the user row, and commits; returns `True`.  (On a database error
the transaction is rolled back, leaving the state unchanged, and the
error re-raised; only the committed success path is embedded.) -/
def delete_user_and_all_data (user_id : Nat) (st : DBState) :
    Bool × DBState :=
  (true,
   { st with
     transactions := st.transactions.filter
       (fun t => !(t.user_id == user_id)),
     investments := st.investments.filter
       (fun i => !(i.user_id == user_id)),
     accounts := st.accounts.filter (fun a => !(a.user_id == user_id)),
     portfolios := st.portfolios.filter (fun p => !(p.user_id == user_id)),
     users := st.users.filter (fun u => !(u.user_id == user_id)) })

/-! ### app.py — session state and the buy-asset workflow -/

/-- The dataframes `load_data` caches in `st.session_state` that the
buy-asset workflow reads.  (`load_data` also caches `investments_df`,
`transactions_df` and `portfolio_summary` for display; the buy workflow
does not read those — it re-reads the investments from the store.) -/
structure Session where
  accounts_df : List Account
  portfolios_df : List Portfolio
  asset_types_df : List AssetType
  assets_df : List Asset
  deriving Repr, DecidableEq

/-- `load_data(user_id, ...)`: populates the session dataframes from the
store (`get_account_balances_df` → `get_accounts_by_user`,
`get_portfolios_df` → `get_portfolios_by_user`, `get_asset_types_df` →
`get_asset_types`, `get_assets_df` → `get_all_assets`).  The `ORDER BY
type_name` / `ORDER BY name` of the two reference-data queries only
reorders rows for display and is not embedded; theorems about the
workflow quantify over the session contents. -/
def load_data (user_id : Nat) (st : DBState) : Session :=
  { accounts_df := get_accounts_by_user user_id st,
    portfolios_df := get_portfolios_by_user user_id st,
    asset_types_df := st.asset_types,
    assets_df := st.assets }

/-- Which of the buy workflow's store calls raises a database error.
`execute_query` rolls back the single failing statement (so that
statement changes nothing) and re-raises; earlier statements are already
committed. -/
structure Faults where
  failDebit : Bool
  failGetInvestments : Bool
  failUpdateInvestment : Bool
  failAddInvestment : Bool
  failAddTransaction : Bool
  deriving Repr, DecidableEq

/-- The fault-free environment: every store call succeeds. -/
def noFaults : Faults :=
  { failDebit := false, failGetInvestments := false,
    failUpdateInvestment := false, failAddInvestment := false,
    failAddTransaction := false }

/-- Outcome reported to the user by the buy-asset form handler. -/
inductive BuyResult where
  /-- "Please select an account to make the purchase." -/
  | errNoAccount : BuyResult
  /-- "Please select an asset to purchase." -/
  | errNoAsset : BuyResult
  /-- "Quantity to buy must be greater than zero." -/
  | errNonPositiveQuantity : BuyResult
  /-- "Insufficient balance! You need required but only have available."
  -/
  | errInsufficient (required available : ℚ) : BuyResult
  /-- "Please select a portfolio and asset category to add this new
  investment." — the plain `return` in the new-investment branch. -/
  | errNoPortfolioCategory : BuyResult
  /-- "Transaction failed ..." — an exception caught by the handler's
  `except` clauses. -/
  | errFailedStep (msg : String) : BuyResult
  /-- "Successfully purchased ...". -/
  | success : BuyResult
  deriving Repr, DecidableEq

/-- Step 3 of the buy workflow (`# 3. Log transaction`): append the Buy
transaction; a falsy `lastrowid` raises "Failed to log transaction.".
(The numeric interpolations of the f-string description are abstracted
to the asset name.) -/
def buyLogTransaction (user_id selected_account_id selected_asset_id : Nat)
    (selected_asset_name : String) (total_cost quantity_to_buy : ℚ)
    (selected_asset_unit_price : ℚ) (faults : Faults) (store : DBState) :
    BuyResult × DBState :=
  if faults.failAddTransaction then
    (.errFailedStep "database error", store)
  else
    let r := add_transaction user_id (some selected_account_id) none
      (some selected_asset_id) "Buy" total_cost quantity_to_buy
      selected_asset_unit_price ("Bought " ++ selected_asset_name) store
    if r.1 == 0 then (.errFailedStep "Failed to log transaction.", r.2)
    else (.success, r.2)

/-- The `try:` block of the submitted buy form (`app.py` lines 418-491):
debit the account, upsert the holding, then log the transaction.  Each
store call commits independently; an exception lands in the `except`
clauses, which only display an error — nothing already committed is
rolled back.  In the new-investment branch the two fallback selectboxes
rendered inside the submitted form return their first option (`head?`)
when options exist and `None` otherwise; the code then refilters the
dataframe by that name and takes `iloc[0]`, which is that same first
row. -/
def buyAssetsSteps (sess : Session)
    (user_id selected_account_id selected_asset_id : Nat)
    (selected_asset_name : String)
    (quantity_to_buy total_cost current_account_balance : ℚ)
    (selected_asset_unit_price : ℚ) (account_currency : String)
    (today : String) (faults : Faults) (store : DBState) :
    BuyResult × DBState :=
  -- 1. Deduct total from account
  if faults.failDebit then (.errFailedStep "database error", store)
  else
    let new_account_balance := current_account_balance - total_cost
    let r1 := update_account_balance selected_account_id
      new_account_balance store
    if !r1.1 then (.errFailedStep "Failed to update account balance.", r1.2)
    else if faults.failGetInvestments then
      (.errFailedStep "database error", r1.2)
    else
      -- 2. Update/Add quantity in the user's investment portfolio:
      -- first investment of the user holding this asset, if any
      let user_investments := get_investments_by_user user_id r1.2
      match user_investments.find?
          (fun inv => inv.asset_id == selected_asset_id) with
      | some existing_investment =>
        if faults.failUpdateInvestment then
          (.errFailedStep "database error", r1.2)
        else
          let new_quantity := existing_investment.quantity + quantity_to_buy
          let r2 := update_investment existing_investment.investment_id
            none none none none (some new_quantity) none none none none
            none r1.2
          if !r2.1 then
            (.errFailedStep "Failed to update existing investment quantity.",
             r2.2)
          else
            buyLogTransaction user_id selected_account_id selected_asset_id
              selected_asset_name total_cost quantity_to_buy
              selected_asset_unit_price faults r2.2
      | none =>
        match sess.portfolios_df.head?, sess.asset_types_df.head? with
        | some prow, some trow =>
          if faults.failAddInvestment then
            (.errFailedStep "database error", r1.2)
          else
            let r2 := add_investment user_id prow.portfolio_id
              trow.asset_type_id selected_asset_id
              (selected_asset_name ++ " Holdings") none total_cost today
              quantity_to_buy account_currency
              (some ("Initial purchase of " ++ selected_asset_name)) r1.2
            if r2.1 == 0 then
              (.errFailedStep "Failed to add new investment.", r2.2)
            else
              buyLogTransaction user_id selected_account_id
                selected_asset_id selected_asset_name total_cost
                quantity_to_buy selected_asset_unit_price faults r2.2
        | _, _ => (.errNoPortfolioCategory, r1.2)

/-- The submitted buy-asset form handler (`app.py` lines 359-495).  The
payment account and the asset are selected by name from the cached
session dataframes (the "None" sentinel of the account selectbox is
`none`); balance, unit price and ids are read from those cached rows;
`total_cost = Decimal(str(quantity_to_buy)) * selected_asset_unit_price`
(exact); validation rejects a missing account, a missing asset, a
non-positive quantity, and `total_cost > current_account_balance`,
in that order, before running the mutation steps. -/
def buy_assets (sess : Session) (user_id : Nat)
    (selected_account_name : Option String)
    (selected_asset_name : Option String) (quantity_to_buy : ℚ)
    (today : String) (faults : Faults) (store : DBState) :
    BuyResult × DBState :=
  let selected_account_row := selected_account_name.bind
    (fun n => sess.accounts_df.find? (fun a => a.account_name == n))
  let current_account_balance : ℚ :=
    (selected_account_row.map (fun a => a.current_balance)).getD 0
  let selected_asset_row := selected_asset_name.bind
    (fun n => sess.assets_df.find? (fun a => a.name == n))
  let selected_asset_unit_price : ℚ :=
    (selected_asset_row.map (fun a => a.unit_price)).getD 0
  let total_cost := quantity_to_buy * selected_asset_unit_price
  match selected_account_row with
  | none => (.errNoAccount, store)
  | some acct =>
    match selected_asset_row with
    | none => (.errNoAsset, store)
    | some asset =>
      if quantity_to_buy ≤ 0 then (.errNonPositiveQuantity, store)
      else if current_account_balance < total_cost then
        (.errInsufficient total_cost current_account_balance, store)
      else
        buyAssetsSteps sess user_id acct.account_id asset.asset_id
          asset.name quantity_to_buy total_cost current_account_balance
          selected_asset_unit_price acct.currency today faults store

/-- One submitted buy request as the main script executes it: on every
Streamlit rerun the logged-in main body first calls
`load_data(st.session_state.user_id, st.session_state.user_role)`
(`app.py` line 1094) and then routes to `buy_assets()`, so the session
dataframes the form handler reads were loaded from the current store
within the same request.  The request is a function of the store alone:
no dataframe surviving from an earlier request is consulted. -/
def buy_assets_request (user_id : Nat)
    (selected_account_name selected_asset_name : Option String)
    (quantity_to_buy : ℚ) (today : String) (faults : Faults)
    (store : DBState) : BuyResult × DBState :=
  buy_assets (load_data user_id store) user_id selected_account_name
    selected_asset_name quantity_to_buy today faults store

/-! ### Statement vocabulary -/

/-- The current unit price of the asset an investment references (`0`
when the asset row is missing): first-match primary-key lookup in the
`assets` table, as the summary and listing queries perform it. -/
def referencedUnitPrice (st : DBState) (i : Investment) : ℚ :=
  ((st.assets.find? (fun a => a.asset_id == i.asset_id)).map
    (fun a => a.unit_price)).getD 0

/-! ### Concrete fixtures

A small concrete store used to evaluate the workflow at the scenarios of
the specification: one user with one Savings account (balance 1000), one
portfolio, one category, the asset Gold at unit price 70, and an
existing Gold holding of quantity 10. -/

/-- The user's payment account, balance 1000. -/
def exAccount : Account :=
  { account_id := 1, user_id := 1, account_name := "Main",
    account_type := "Savings", current_balance := 1000, currency := "USD" }

/-- The asset Gold at unit price 70. -/
def exGold : Asset :=
  { asset_id := 1, name := "Gold", unit_price := 70, unit_type := "grams" }

/-- The user's existing Gold holding, quantity 10. -/
def exInvestment : Investment :=
  { investment_id := 1, user_id := 1, portfolio_id := 1,
    asset_category_id := 1, asset_id := 1, investment_name := "My Gold",
    symbol := none, initial_investment_amount := 700,
    purchase_date := "2024-01-01", quantity := 10, currency := "USD",
    notes := none }

/-- The base store. -/
def exStore : DBState :=
  { users := [{ user_id := 1, username := "alice", role := "user" }],
    accounts := [exAccount],
    portfolios := [{ portfolio_id := 1, user_id := 1,
                     portfolio_name := "P1", description := none }],
    asset_types := [{ asset_type_id := 1, type_name := "Stock",
                      description := none }],
    assets := [exGold],
    investments := [exInvestment],
    transactions := [],
    nextInvestmentId := 2, nextTransactionId := 1 }

/-- The session dataframes as loaded from `exStore` at login. -/
def exSession : Session := load_data 1 exStore

/-- Environment in which the transaction-log insert raises. -/
def exFaultsTxLog : Faults := { noFaults with failAddTransaction := true }

/-- `exStore` for a user who owns no portfolio and holds no investment. -/
def exStoreNoPortfolio : DBState :=
  { exStore with portfolios := [], investments := [] }

/-- Session loaded from `exStoreNoPortfolio`. -/
def exSessionNoPortfolio : Session := load_data 1 exStoreNoPortfolio

/-- `exStore` after the admin repriced Gold from 70 to 75. -/
def exStoreRepriced : DBState := (update_asset_price 1 75 exStore).2

/-- Account with balance 100, for the insufficient-funds scenario. -/
def exAccountPoor : Account :=
  { account_id := 1, user_id := 1, account_name := "Main",
    account_type := "Savings", current_balance := 100, currency := "USD" }

/-- Gold at unit price 50, for the insufficient-funds scenario. -/
def exGoldCheap : Asset :=
  { asset_id := 1, name := "Gold", unit_price := 50, unit_type := "grams" }

/-- Store of the insufficient-funds scenario: balance 100, price 50. -/
def exStoreInsufficient : DBState :=
  { exStore with accounts := [exAccountPoor], assets := [exGoldCheap] }

/-- The joined row `get_investments_by_user` returns for
`exInvestment` in `exStore` (price 70, value 700). -/
def exInvestmentRow : InvestmentRow :=
  { investment_id := 1, user_id := 1, portfolio_id := 1,
    portfolio_name := "P1", asset_category_id := 1,
    asset_category_name := "Stock", asset_id := 1, asset_name := "Gold",
    current_unit_price := 70, unit_type := "grams",
    investment_name := "My Gold", symbol := none,
    initial_investment_amount := 700, purchase_date := "2024-01-01",
    quantity := 10, current_value := 700, currency := "USD", notes := none }

/-- The joined row for `exInvestment` in `exStoreRepriced`
(price 75, value 750). -/
def exInvestmentRowRepriced : InvestmentRow :=
  { exInvestmentRow with current_unit_price := 75, current_value := 750 }

/-! ### Helper lemmas -/

/-- A MySQL `SUM` with its `NULL`-to-`0.00` replacement is the plain list
sum. -/
theorem sqlSum_getD (l : List ℚ) : (sqlSum l).getD 0 = l.sum := by
  cases l <;> simp [sqlSum]

/-- A `filterMap` whose function succeeds on every element is a `map`. -/
theorem filterMap_eq_map_of_forall {α β : Type} (f : α → Option β)
    (g : α → β) :
    ∀ l : List α, (∀ x ∈ l, f x = some (g x)) →
      l.filterMap f = l.map g := by
  intro l h
  induction l with
  | nil => rfl
  | cons x xs ih =>
    rw [List.filterMap_cons, h x (by simp), List.map_cons,
      ih (fun y hy => h y (by simp [hy]))]

/-- Every row of `get_investments_by_user` comes from a stored investment
of that user, carries its stored `quantity` and ids, and has
`current_unit_price` and `current_value` computed from the first asset
row whose primary key it references. -/
theorem mem_get_investments_by_user {uid : Nat} {st : DBState}
    {row : InvestmentRow} (h : row ∈ get_investments_by_user uid st) :
    ∃ i ∈ st.investments, i.user_id = uid ∧
      row.investment_id = i.investment_id ∧ row.user_id = i.user_id ∧
      row.asset_id = i.asset_id ∧ row.quantity = i.quantity ∧
      ∃ a, st.assets.find? (fun x => x.asset_id == i.asset_id) = some a ∧
        row.current_unit_price = a.unit_price ∧
        row.current_value = i.quantity * a.unit_price := by
  unfold get_investments_by_user at h
  rw [List.mem_filterMap] at h
  obtain ⟨i, hi, hrow⟩ := h
  rw [List.mem_filter] at hi
  obtain ⟨hmem, huser⟩ := hi
  refine ⟨i, hmem, by simpa using huser, ?_⟩
  split at hrow
  case _ p t a hfp hft hfa =>
    obtain rfl := Option.some_injective _ hrow
    exact ⟨rfl, rfl, rfl, rfl, a, hfa, rfl, rfl⟩
  case _ => exact absurd hrow (by simp)

/-- Once validation passes (account and asset resolved from the session
dataframes, positive quantity, sufficient cached funds), the submitted
form handler runs the mutation steps with the cached balance and price. -/
theorem buy_assets_eq_steps (sess : Session) (uid : Nat)
    (aname asname today : String) (q : ℚ) (faults : Faults)
    (store : DBState) (acct : Account) (asset : Asset)
    (hA : sess.accounts_df.find? (fun a => a.account_name == aname) =
      some acct)
    (hS : sess.assets_df.find? (fun a => a.name == asname) = some asset)
    (hq : 0 < q)
    (hfunds : q * asset.unit_price ≤ acct.current_balance) :
    buy_assets sess uid (some aname) (some asname) q today faults store =
      buyAssetsSteps sess uid acct.account_id asset.asset_id asset.name q
        (q * asset.unit_price) acct.current_balance asset.unit_price
        acct.currency today faults store := by
  unfold buy_assets
  simp only [Option.some_bind, hA, hS, Option.map_some', Option.getD_some]
  rw [if_neg (not_le.mpr hq), if_neg (not_lt.mpr hfunds)]

/-- Fault-free run of the mutation steps when the user already holds the
asset: the account rows with the selected id are set to the cached
balance minus the total cost, the first matching investment row's
quantity becomes its re-read quantity plus the purchased quantity, and
one Buy transaction is appended. -/
theorem buyAssetsSteps_existing (sess : Session)
    (uid acct_id the_asset_id : Nat) (aname : String)
    (q total bal price : ℚ) (curr today : String) (store : DBState)
    (invRow : InvestmentRow)
    (hacct : store.accounts.any (fun a => a.account_id == acct_id) = true)
    (hfind : (get_investments_by_user uid store).find?
        (fun inv => inv.asset_id == the_asset_id) = some invRow)
    (hnt : store.nextTransactionId ≠ 0) :
    buyAssetsSteps sess uid acct_id the_asset_id aname q total bal price
        curr today noFaults store =
      (.success,
       { store with
         accounts := store.accounts.map (fun a =>
           if a.account_id == acct_id then
             { a with current_balance := bal - total } else a),
         investments := store.investments.map (fun i =>
           if i.investment_id == invRow.investment_id then
             { i with quantity := invRow.quantity + q } else i),
         transactions := store.transactions ++
           [{ transaction_id := store.nextTransactionId, user_id := uid,
              account_id := some acct_id, investment_id := none,
              asset_id := some the_asset_id, transaction_type := "Buy",
              amount := total, quantity := q,
              unit_price_at_transaction := price,
              description := "Bought " ++ aname }],
         nextTransactionId := store.nextTransactionId + 1 }) := by
  have hrowmem := List.mem_of_find?_eq_some hfind
  obtain ⟨i0, hi0mem, -, hid, -, -, -, -⟩ :=
    mem_get_investments_by_user hrowmem
  have h1 : (update_account_balance acct_id (bal - total) store).1 = true :=
    hacct
  have hinv : ((update_account_balance acct_id
      (bal - total) store).2.investments.any
      (fun i => i.investment_id == invRow.investment_id)) = true :=
    List.any_eq_true.mpr ⟨i0, hi0mem, by simp [hid]⟩
  have hfind2 : (get_investments_by_user uid
      (update_account_balance acct_id (bal - total) store).2).find?
        (fun inv => inv.asset_id == the_asset_id) = some invRow := hfind
  simp only [buyAssetsSteps, noFaults, h1, Bool.not_true,
    Bool.false_eq_true, if_false, hfind2]
  simp only [update_investment, Option.isNone_some, Option.isNone_none,
    Bool.and_false, Bool.false_and, Bool.and_true, Bool.true_and,
    Bool.false_eq_true, if_false, hinv, Bool.not_true,
    Option.getD_some, Option.getD_none]
  simp only [buyLogTransaction, noFaults, add_transaction,
    Bool.false_eq_true, if_false]
  rw [if_neg (by simpa using hnt : ¬ ((update_account_balance acct_id
    (bal - total) store).2.nextTransactionId == 0) = true)]
  rfl

/-- Fault-free run of the mutation steps when the user does not hold the
asset and both fallback selectboxes have options: the account is
debited, a new investment row for the head portfolio and head category
is appended with the purchased quantity, and one Buy transaction is
appended. -/
theorem buyAssetsSteps_new (sess : Session)
    (uid acct_id the_asset_id : Nat) (aname : String)
    (q total bal price : ℚ) (curr today : String) (store : DBState)
    (prow : Portfolio) (trow : AssetType)
    (hacct : store.accounts.any (fun a => a.account_id == acct_id) = true)
    (hfind : (get_investments_by_user uid store).find?
        (fun inv => inv.asset_id == the_asset_id) = none)
    (hp : sess.portfolios_df.head? = some prow)
    (hc : sess.asset_types_df.head? = some trow)
    (hni : store.nextInvestmentId ≠ 0)
    (hnt : store.nextTransactionId ≠ 0) :
    buyAssetsSteps sess uid acct_id the_asset_id aname q total bal price
        curr today noFaults store =
      (.success,
       { store with
         accounts := store.accounts.map (fun a =>
           if a.account_id == acct_id then
             { a with current_balance := bal - total } else a),
         investments := store.investments ++
           [{ investment_id := store.nextInvestmentId, user_id := uid,
              portfolio_id := prow.portfolio_id,
              asset_category_id := trow.asset_type_id,
              asset_id := the_asset_id,
              investment_name := aname ++ " Holdings", symbol := none,
              initial_investment_amount := total, purchase_date := today,
              quantity := q, currency := curr,
              notes := some ("Initial purchase of " ++ aname) }],
         transactions := store.transactions ++
           [{ transaction_id := store.nextTransactionId, user_id := uid,
              account_id := some acct_id, investment_id := none,
              asset_id := some the_asset_id, transaction_type := "Buy",
              amount := total, quantity := q,
              unit_price_at_transaction := price,
              description := "Bought " ++ aname }],
         nextInvestmentId := store.nextInvestmentId + 1,
         nextTransactionId := store.nextTransactionId + 1 }) := by
  have h1 : (update_account_balance acct_id (bal - total) store).1 = true :=
    hacct
  have hfind2 : (get_investments_by_user uid
      (update_account_balance acct_id (bal - total) store).2).find?
        (fun inv => inv.asset_id == the_asset_id) = none := hfind
  have hni2 : ((update_account_balance acct_id
      (bal - total) store).2.nextInvestmentId == 0) = false := by
    simpa using hni
  have hnt2 : ((add_investment uid prow.portfolio_id trow.asset_type_id
      the_asset_id (aname ++ " Holdings") none total today q curr
      (some ("Initial purchase of " ++ aname))
      (update_account_balance acct_id
        (bal - total) store).2).2.nextTransactionId == 0) = false := by
    simpa using hnt
  simp only [buyAssetsSteps, noFaults, h1, Bool.not_true,
    Bool.false_eq_true, if_false, hfind2, hp, hc]
  simp only [add_investment, Bool.false_eq_true, if_false] at hnt2 ⊢
  rw [hni2]
  simp only [Bool.false_eq_true, if_false]
  simp only [buyLogTransaction, noFaults, add_transaction,
    Bool.false_eq_true, if_false]
  rw [hnt2]
  simp only [Bool.false_eq_true, if_false]
  rfl

/-- Whatever happens after validation, the mutation steps never report
an insufficient-funds error: that rejection is decided before any step
runs. -/
theorem buyAssetsSteps_result_not_insufficient (sess : Session)
    (uid acct_id the_asset_id : Nat) (aname : String)
    (q total bal price : ℚ) (curr today : String) (faults : Faults)
    (store : DBState) (r b : ℚ) :
    (buyAssetsSteps sess uid acct_id the_asset_id aname q total bal price
      curr today faults store).1 ≠ .errInsufficient r b := by
  simp only [buyAssetsSteps, buyLogTransaction]
  repeat' split
  all_goals simp

/-! ### Claim theorems -/

/-- C1: evaluation of the buy workflow at a failing input refuting the
claimed all-or-nothing behaviour.  With balance 1000, Gold at 70, an
existing Gold holding of quantity 10 and a buy of quantity 5, when the
transaction-log insert raises a database error the handler reports a
failure, yet afterwards the balance is 650 (not the pre-workflow 1000)
and the holding is 15 (not 10), with no transaction logged: the
already-committed debit and holding update are not rolled back, so the
pre-workflow state is not restored. -/
theorem buy_step_failure_leaves_partial_state :
    (buy_assets exSession 1 (some "Main") (some "Gold") 5 "2025-01-01"
      exFaultsTxLog exStore).1 = .errFailedStep "database error" ∧
    ((buy_assets exSession 1 (some "Main") (some "Gold") 5 "2025-01-01"
      exFaultsTxLog exStore).2.accounts.map
        (fun a => a.current_balance)) = [650] ∧
    ((buy_assets exSession 1 (some "Main") (some "Gold") 5 "2025-01-01"
      exFaultsTxLog exStore).2.investments.map
        (fun i => i.quantity)) = [15] ∧
    (buy_assets exSession 1 (some "Main") (some "Gold") 5 "2025-01-01"
      exFaultsTxLog exStore).2.transactions = [] ∧
    exStore.accounts.map (fun a => a.current_balance) = [1000] ∧
    exStore.investments.map (fun i => i.quantity) = [10] ∧
    exStore.transactions = [] := by
  norm_num [buy_assets, buyAssetsSteps, buyLogTransaction, exSession,
    load_data, exStore, exAccount, exGold, exInvestment,
    get_accounts_by_user, get_portfolios_by_user, update_account_balance,
    get_investments_by_user, update_investment, add_transaction,
    add_investment, exFaultsTxLog, noFaults, List.find?, List.filter,
    List.filterMap, List.any]

/-- C2: evaluation of the buy workflow at a failing input refuting the
claimed abort-before-debit behaviour.  A user with no portfolio buys an
asset they do not yet hold with sufficient funds: the handler reports
the unresolved-portfolio/category error, but only after the debit step
has already committed — the balance afterwards is 650, not the
pre-workflow 1000, while no investment or transaction was created. -/
theorem buy_unresolved_portfolio_debits_before_abort :
    (buy_assets exSessionNoPortfolio 1 (some "Main") (some "Gold") 5
      "2025-01-01" noFaults exStoreNoPortfolio).1 =
      .errNoPortfolioCategory ∧
    ((buy_assets exSessionNoPortfolio 1 (some "Main") (some "Gold") 5
      "2025-01-01" noFaults exStoreNoPortfolio).2.accounts.map
        (fun a => a.current_balance)) = [650] ∧
    (buy_assets exSessionNoPortfolio 1 (some "Main") (some "Gold") 5
      "2025-01-01" noFaults exStoreNoPortfolio).2.investments = [] ∧
    (buy_assets exSessionNoPortfolio 1 (some "Main") (some "Gold") 5
      "2025-01-01" noFaults exStoreNoPortfolio).2.transactions = [] ∧
    exStoreNoPortfolio.accounts.map (fun a => a.current_balance) =
      [1000] := by
  norm_num [buy_assets, buyAssetsSteps, buyLogTransaction,
    exSessionNoPortfolio, load_data, exStoreNoPortfolio, exStore,
    exAccount, exGold, get_accounts_by_user, get_portfolios_by_user,
    update_account_balance, get_investments_by_user, update_investment,
    add_transaction, add_investment, noFaults, List.find?, List.filter,
    List.filterMap, List.any]

/-- C3: a buy request whose total cost `q * unit_price` exceeds the
selected account's balance is rejected with the insufficient-funds error
carrying the required and available amounts, and the store is returned
unchanged; and whenever the total cost is at most the balance, the
workflow never reports insufficient funds. -/
theorem buy_rejects_insufficient_funds (sess : Session) (uid : Nat)
    (aname asname today : String) (q : ℚ) (faults : Faults)
    (store : DBState) (acct : Account) (asset : Asset)
    (hA : sess.accounts_df.find? (fun a => a.account_name == aname) =
      some acct)
    (hS : sess.assets_df.find? (fun a => a.name == asname) = some asset)
    (hq : 0 < q) :
    (acct.current_balance < q * asset.unit_price →
      buy_assets sess uid (some aname) (some asname) q today faults store =
        (.errInsufficient (q * asset.unit_price) acct.current_balance,
         store)) ∧
    (q * asset.unit_price ≤ acct.current_balance →
      ∀ r b, (buy_assets sess uid (some aname) (some asname) q today faults
        store).1 ≠ .errInsufficient r b) := by
  constructor
  · intro hover
    unfold buy_assets
    simp only [Option.some_bind, hA, hS, Option.map_some', Option.getD_some]
    rw [if_neg (not_le.mpr hq), if_pos hover]
  · intro hfunds r b
    rw [buy_assets_eq_steps sess uid aname asname today q faults store acct
      asset hA hS hq hfunds]
    exact buyAssetsSteps_result_not_insufficient sess uid acct.account_id
      asset.asset_id asset.name q (q * asset.unit_price)
      acct.current_balance asset.unit_price acct.currency today faults
      store r b

/-- C3 witness: the specification's scenario — balance 100, unit price
50, quantity 3 — is rejected with required 150 and available 100, and
the store is unchanged. -/
theorem buy_rejects_insufficient_funds_witness :
    buy_assets (load_data 1 exStoreInsufficient) 1 (some "Main")
      (some "Gold") 3 "2025-01-01" noFaults exStoreInsufficient =
      (.errInsufficient 150 100, exStoreInsufficient) := by
  have h := (buy_rejects_insufficient_funds (load_data 1 exStoreInsufficient)
    1 "Main" "Gold" "2025-01-01" 3 noFaults exStoreInsufficient
    exAccountPoor exGoldCheap rfl rfl (by norm_num)).1
    (by norm_num [exAccountPoor, exGoldCheap])
  norm_num [exAccountPoor, exGoldCheap] at h
  exact h

/-- C4: a fault-free buy of quantity `q` at session values that agree
with the store debits exactly `q * unit_price` from the selected
account, appends exactly one Buy transaction carrying the total cost,
the quantity and the snapshotted unit price, and either increments the
first matching holding's quantity by `q` without creating a row, or
appends a single new holding of quantity `q`. -/
theorem buy_success_conservation (sess : Session) (uid : Nat)
    (aname asname today : String) (q : ℚ) (store : DBState)
    (acct : Account) (asset : Asset)
    (hA : sess.accounts_df.find? (fun a => a.account_name == aname) =
      some acct)
    (hS : sess.assets_df.find? (fun a => a.name == asname) = some asset)
    (hq : 0 < q)
    (hfunds : q * asset.unit_price ≤ acct.current_balance)
    (hmem : acct ∈ store.accounts)
    (hbal : ∀ a ∈ store.accounts, a.account_id = acct.account_id →
      a.current_balance = acct.current_balance)
    (hport : sess.portfolios_df ≠ [])
    (hcat : sess.asset_types_df ≠ [])
    (hni : store.nextInvestmentId ≠ 0)
    (hnt : store.nextTransactionId ≠ 0) :
    (buy_assets sess uid (some aname) (some asname) q today noFaults
      store).1 = .success ∧
    (buy_assets sess uid (some aname) (some asname) q today noFaults
      store).2.accounts = store.accounts.map (fun a =>
        if a.account_id == acct.account_id then
          { a with current_balance := a.current_balance -
              q * asset.unit_price } else a) ∧
    (buy_assets sess uid (some aname) (some asname) q today noFaults
      store).2.transactions = store.transactions ++
        [{ transaction_id := store.nextTransactionId, user_id := uid,
           account_id := some acct.account_id, investment_id := none,
           asset_id := some asset.asset_id, transaction_type := "Buy",
           amount := q * asset.unit_price, quantity := q,
           unit_price_at_transaction := asset.unit_price,
           description := "Bought " ++ asset.name }] ∧
    (match (get_investments_by_user uid store).find?
        (fun inv => inv.asset_id == asset.asset_id) with
     | some invRow =>
       (∃ i0 ∈ store.investments, i0.investment_id = invRow.investment_id ∧
          i0.quantity = invRow.quantity) ∧
       (buy_assets sess uid (some aname) (some asname) q today noFaults
         store).2.investments = store.investments.map (fun i =>
           if i.investment_id == invRow.investment_id then
             { i with quantity := invRow.quantity + q } else i) ∧
       (buy_assets sess uid (some aname) (some asname) q today noFaults
         store).2.investments.length = store.investments.length
     | none =>
       ∃ newInv,
         (buy_assets sess uid (some aname) (some asname) q today noFaults
           store).2.investments = store.investments ++ [newInv] ∧
         newInv.quantity = q ∧ newInv.asset_id = asset.asset_id ∧
         newInv.user_id = uid) := by
  have hacctany : store.accounts.any
      (fun a => a.account_id == acct.account_id) = true :=
    List.any_eq_true.mpr ⟨acct, hmem, by simp⟩
  have haccs : store.accounts.map (fun a =>
      if a.account_id == acct.account_id then
        { a with current_balance :=
            acct.current_balance - q * asset.unit_price } else a) =
      store.accounts.map (fun a =>
        if a.account_id == acct.account_id then
          { a with current_balance :=
              a.current_balance - q * asset.unit_price } else a) := by
    refine List.map_congr_left (fun a ha => ?_)
    by_cases hid : (a.account_id == acct.account_id) = true
    · simp only [hid, if_true]
      rw [hbal a ha (by simpa using hid)]
    · simp only [hid]
      simp
  rw [buy_assets_eq_steps sess uid aname asname today q noFaults store acct
    asset hA hS hq hfunds]
  cases hfind : (get_investments_by_user uid store).find?
      (fun inv => inv.asset_id == asset.asset_id) with
  | some invRow =>
    obtain ⟨i0, hi0mem, -, hid0, -, -, hq0, -⟩ :=
      mem_get_investments_by_user (List.mem_of_find?_eq_some hfind)
    rw [buyAssetsSteps_existing sess uid acct.account_id asset.asset_id
      asset.name q (q * asset.unit_price) acct.current_balance
      asset.unit_price acct.currency today store invRow hacctany hfind hnt]
    refine ⟨rfl, haccs, rfl, ⟨i0, hi0mem, hid0.symm, hq0.symm⟩, rfl, by simp⟩
  | none =>
    obtain ⟨prow, ps, hps⟩ := List.exists_cons_of_ne_nil hport
    obtain ⟨trow, ts, hts⟩ := List.exists_cons_of_ne_nil hcat
    rw [buyAssetsSteps_new sess uid acct.account_id asset.asset_id
      asset.name q (q * asset.unit_price) acct.current_balance
      asset.unit_price acct.currency today store prow trow hacctany hfind
      (by rw [hps]; rfl) (by rw [hts]; rfl) hni hnt]
    exact ⟨rfl, haccs, rfl,
      ⟨{ investment_id := store.nextInvestmentId, user_id := uid,
         portfolio_id := prow.portfolio_id,
         asset_category_id := trow.asset_type_id,
         asset_id := asset.asset_id,
         investment_name := asset.name ++ " Holdings", symbol := none,
         initial_investment_amount := q * asset.unit_price,
         purchase_date := today, quantity := q, currency := acct.currency,
         notes := some ("Initial purchase of " ++ asset.name) },
       rfl, rfl, rfl, rfl⟩⟩

/-- C4 witness: the specification's scenario — balance 1000, Gold at 70,
buy quantity 5 — succeeds, leaves balance 650, and logs one Buy
transaction with amount 350, quantity 5 and unit price 70. -/
theorem buy_success_conservation_witness :
    (buy_assets exSession 1 (some "Main") (some "Gold") 5 "2025-01-01"
      noFaults exStore).1 = .success ∧
    ((buy_assets exSession 1 (some "Main") (some "Gold") 5 "2025-01-01"
      noFaults exStore).2.accounts.map (fun a => a.current_balance)) =
      [650] ∧
    ((buy_assets exSession 1 (some "Main") (some "Gold") 5 "2025-01-01"
      noFaults exStore).2.transactions.map (fun t =>
        (t.transaction_type, t.amount, t.quantity,
         t.unit_price_at_transaction))) = [("Buy", 350, 5, 70)] := by
  have h := buy_success_conservation exSession 1 "Main" "Gold" "2025-01-01"
    5 exStore exAccount exGold rfl rfl (by norm_num)
    (by norm_num [exAccount, exGold]) (by simp [exStore])
    (by simp [exStore]) (by simp [exSession, load_data,
      get_portfolios_by_user, exStore]) (by simp [exSession, load_data,
      exStore]) (by simp [exStore]) (by simp [exStore])
  refine ⟨h.1, ?_, ?_⟩
  · rw [h.2.1]
    norm_num [exStore, exAccount, exGold]
  · rw [h.2.2.1]
    norm_num [exStore, exAccount, exGold]

/-- C5: the portfolio summary's `total_account_balance` is the sum of
the user's account balances, `total_investment_value` is the sum of
`quantity * referenced asset's current unit price` over the user's
investments (each referencing an existing asset), the portfolio total is
their sum, and each component is the zero decimal when the user owns no
accounts or no investments. -/
theorem portfolio_summary_totals (uid : Nat) (st : DBState)
    (hres : ∀ i ∈ st.investments, i.user_id = uid →
      ∃ a, st.assets.find? (fun x => x.asset_id == i.asset_id) = some a) :
    (get_portfolio_summary uid st).total_account_balance =
      ((st.accounts.filter (fun a => a.user_id == uid)).map
        (fun a => a.current_balance)).sum ∧
    (get_portfolio_summary uid st).total_investment_value =
      ((st.investments.filter (fun i => i.user_id == uid)).map
        (fun i => i.quantity * referencedUnitPrice st i)).sum ∧
    (get_portfolio_summary uid st).total_portfolio_value =
      (get_portfolio_summary uid st).total_account_balance +
        (get_portfolio_summary uid st).total_investment_value ∧
    (st.accounts.filter (fun a => a.user_id == uid) = [] →
      (get_portfolio_summary uid st).total_account_balance = 0) ∧
    (st.investments.filter (fun i => i.user_id == uid) = [] →
      (get_portfolio_summary uid st).total_investment_value = 0) := by
  have hmapeq : ((st.investments.filter
      (fun i => i.user_id == uid)).filterMap
        (fun i => (st.assets.find? (fun a => a.asset_id == i.asset_id)).map
          (fun a => i.quantity * a.unit_price))) =
      ((st.investments.filter (fun i => i.user_id == uid)).map
        (fun i => i.quantity * referencedUnitPrice st i)) := by
    refine filterMap_eq_map_of_forall _ _ _ (fun i hi => ?_)
    rw [List.mem_filter] at hi
    obtain ⟨a, ha⟩ := hres i hi.1 (by simpa using hi.2)
    rw [ha, referencedUnitPrice, ha]
    rfl
  refine ⟨?_, ?_, rfl, ?_, ?_⟩
  · exact sqlSum_getD _
  · show (sqlSum _).getD 0 = _
    rw [hmapeq, sqlSum_getD]
  · intro h
    show (sqlSum _).getD 0 = 0
    rw [h]
    rfl
  · intro h
    show (sqlSum _).getD 0 = 0
    rw [h]
    rfl

/-- C5 witness: the summary identities evaluated at the concrete store
with one account and one investment. -/
theorem portfolio_summary_totals_witness :
    (get_portfolio_summary 1 exStore).total_account_balance =
      ((exStore.accounts.filter (fun a => a.user_id == 1)).map
        (fun a => a.current_balance)).sum ∧
    (get_portfolio_summary 1 exStore).total_investment_value =
      ((exStore.investments.filter (fun i => i.user_id == 1)).map
        (fun i => i.quantity * referencedUnitPrice exStore i)).sum ∧
    (get_portfolio_summary 1 exStore).total_portfolio_value =
      (get_portfolio_summary 1 exStore).total_account_balance +
        (get_portfolio_summary 1 exStore).total_investment_value ∧
    (exStore.accounts.filter (fun a => a.user_id == 1) = [] →
      (get_portfolio_summary 1 exStore).total_account_balance = 0) ∧
    (exStore.investments.filter (fun i => i.user_id == 1) = [] →
      (get_portfolio_summary 1 exStore).total_investment_value = 0) :=
  portfolio_summary_totals 1 exStore (by
    intro i hi hu
    simp only [exStore, List.mem_singleton] at hi
    subst hi
    exact ⟨exGold, rfl⟩)

/-- C6: every row returned by the investments read has
`current_value = quantity * current_unit_price` computed at read time,
and immediately after `update_asset_price` changes an asset's price,
every row referencing that asset reports the new price and the value
computed from it — no stored or cached value survives. -/
theorem current_value_always_quantity_times_price (uid aid : Nat) (p' : ℚ)
    (st : DBState) :
    (∀ row ∈ get_investments_by_user uid st,
      row.current_value = row.quantity * row.current_unit_price) ∧
    (∀ row ∈ get_investments_by_user uid (update_asset_price aid p' st).2,
      row.asset_id = aid →
        row.current_unit_price = p' ∧
        row.current_value = row.quantity * p') := by
  constructor
  · intro row hrow
    obtain ⟨i, -, -, -, -, -, hqty, a, -, hprice, hval⟩ :=
      mem_get_investments_by_user hrow
    rw [hval, hqty, hprice]
  · intro row hrow haid
    obtain ⟨i, -, -, -, -, hassetid, hqty, a, hfa, hprice, hval⟩ :=
      mem_get_investments_by_user hrow
    have hamem := List.mem_of_find?_eq_some hfa
    have hpa := List.find?_some hfa
    have haidi : i.asset_id = aid := by rw [← hassetid, haid]
    have hup : a.unit_price = p' := by
      have hmap : (update_asset_price aid p' st).2.assets =
          st.assets.map (fun x => if x.asset_id == aid then
            { x with unit_price := p' } else x) := rfl
      rw [hmap] at hamem
      obtain ⟨orig, horig, hfo⟩ := List.mem_map.mp hamem
      by_cases hcase : (orig.asset_id == aid) = true
      · rw [if_pos hcase] at hfo
        rw [← hfo]
      · rw [if_neg hcase] at hfo
        exfalso
        apply hcase
        have : a.asset_id = aid := by
          rw [show a.asset_id = i.asset_id from by simpa using hpa, haidi]
        rw [← hfo] at this
        simpa using this
    exact ⟨hprice.trans hup, by rw [hval, hqty, hup]⟩

/-- C6 witness: after repricing Gold from 70 to 75, the very next read
of the Gold holding reports unit price 75 and value quantity times 75. -/
theorem current_value_recomputed_witness :
    exInvestmentRowRepriced.current_unit_price = 75 ∧
    exInvestmentRowRepriced.current_value =
      exInvestmentRowRepriced.quantity * 75 :=
  (current_value_always_quantity_times_price 1 1 75 exStore).2
    exInvestmentRowRepriced
    (by norm_num [get_investments_by_user, update_asset_price, exStore,
      exInvestment, exGold, exInvestmentRowRepriced, exInvestmentRow,
      List.find?, List.filter, List.filterMap]) rfl

/-- C7: when the user already holds the selected asset, a successful buy
sets the first matching investment's quantity (first match in the
re-read investment list) to its prior quantity plus the purchased
quantity, leaves every other investment row unchanged, and creates no
new investment row. -/
theorem buy_existing_increments_first_match (sess : Session) (uid : Nat)
    (aname asname today : String) (q : ℚ) (store : DBState)
    (acct : Account) (asset : Asset) (invRow : InvestmentRow)
    (hA : sess.accounts_df.find? (fun a => a.account_name == aname) =
      some acct)
    (hS : sess.assets_df.find? (fun a => a.name == asname) = some asset)
    (hq : 0 < q)
    (hfunds : q * asset.unit_price ≤ acct.current_balance)
    (hmem : acct ∈ store.accounts)
    (hfind : (get_investments_by_user uid store).find?
      (fun inv => inv.asset_id == asset.asset_id) = some invRow)
    (hnt : store.nextTransactionId ≠ 0) :
    (buy_assets sess uid (some aname) (some asname) q today noFaults
      store).1 = .success ∧
    (buy_assets sess uid (some aname) (some asname) q today noFaults
      store).2.investments = store.investments.map (fun i =>
        if i.investment_id == invRow.investment_id then
          { i with quantity := invRow.quantity + q } else i) ∧
    (buy_assets sess uid (some aname) (some asname) q today noFaults
      store).2.investments.length = store.investments.length := by
  rw [buy_assets_eq_steps sess uid aname asname today q noFaults store acct
    asset hA hS hq hfunds,
    buyAssetsSteps_existing sess uid acct.account_id asset.asset_id
      asset.name q (q * asset.unit_price) acct.current_balance
      asset.unit_price acct.currency today store invRow
      (List.any_eq_true.mpr ⟨acct, hmem, by simp⟩) hfind hnt]
  exact ⟨rfl, rfl, by simp⟩

/-- C7 witness: buying 5 more Gold with an existing Gold holding of 10
succeeds, brings the holding to 15 and adds no investment row. -/
theorem buy_existing_increments_witness :
    (buy_assets exSession 1 (some "Main") (some "Gold") 5 "2025-01-01"
      noFaults exStore).1 = .success ∧
    ((buy_assets exSession 1 (some "Main") (some "Gold") 5 "2025-01-01"
      noFaults exStore).2.investments.map (fun i => i.quantity)) = [15] ∧
    (buy_assets exSession 1 (some "Main") (some "Gold") 5 "2025-01-01"
      noFaults exStore).2.investments.length =
      exStore.investments.length := by
  have h := buy_existing_increments_first_match exSession 1 "Main" "Gold"
    "2025-01-01" 5 exStore exAccount exGold exInvestmentRow rfl rfl
    (by norm_num) (by norm_num [exAccount, exGold]) (by simp [exStore])
    (by norm_num [get_investments_by_user, exStore, exInvestment, exGold,
      exInvestmentRow, List.find?, List.filter, List.filterMap])
    (by simp [exStore])
  refine ⟨h.1, ?_, h.2.2⟩
  rw [h.2.1]
  norm_num [exStore, exInvestment, exInvestmentRow]

/-- C8: every submitted buy request re-reads the account balance and the
asset unit price from the store immediately before validating and using
them.  The main script calls `load_data` on the rerun triggered by the
submit click before routing to the form handler, so the request is a
function of the current store alone, and the account row `acct` and
asset row `asset` resolved by the handler are the store's rows at
request time: the funds check compares the cost against the store's
current balance (and an insufficient-funds rejection carries the store's
current required and available amounts), a successful purchase debits
the store's current balance by `q` times the store's current unit price,
and the logged snapshot price is the store's current unit price — no
price or balance cached from an earlier request is used. -/
theorem buy_request_rereads_current_store (user_id : Nat)
    (aname asname today : String) (q : ℚ) (store : DBState)
    (acct : Account) (asset : Asset)
    (hA : (store.accounts.filter (fun a => a.user_id == user_id)).find?
        (fun a => a.account_name == aname) = some acct)
    (hS : store.assets.find? (fun a => a.name == asname) = some asset)
    (hq : 0 < q) :
    (acct.current_balance < q * asset.unit_price →
      buy_assets_request user_id (some aname) (some asname) q today
        noFaults store =
        (.errInsufficient (q * asset.unit_price) acct.current_balance,
         store)) ∧
    (q * asset.unit_price ≤ acct.current_balance →
      ∀ invRow, (get_investments_by_user user_id store).find?
          (fun inv => inv.asset_id == asset.asset_id) = some invRow →
        store.nextTransactionId ≠ 0 →
        (buy_assets_request user_id (some aname) (some asname) q today
          noFaults store).2.transactions = store.transactions ++
            [{ transaction_id := store.nextTransactionId,
               user_id := user_id, account_id := some acct.account_id,
               investment_id := none, asset_id := some asset.asset_id,
               transaction_type := "Buy", amount := q * asset.unit_price,
               quantity := q,
               unit_price_at_transaction := asset.unit_price,
               description := "Bought " ++ asset.name }] ∧
        (buy_assets_request user_id (some aname) (some asname) q today
          noFaults store).2.accounts = store.accounts.map (fun a =>
            if a.account_id == acct.account_id then
              { a with current_balance :=
                  acct.current_balance - q * asset.unit_price }
            else a)) := by
  have hA' : (load_data user_id store).accounts_df.find?
      (fun a => a.account_name == aname) = some acct := hA
  have hS' : (load_data user_id store).assets_df.find?
      (fun a => a.name == asname) = some asset := hS
  constructor
  · intro hover
    unfold buy_assets_request buy_assets
    simp only [Option.some_bind, hA', hS', Option.map_some',
      Option.getD_some]
    rw [if_neg (not_le.mpr hq), if_pos hover]
  · intro hfunds invRow hfind hnt
    have hmem : acct ∈ store.accounts :=
      (List.mem_filter.mp (List.mem_of_find?_eq_some hA)).1
    unfold buy_assets_request
    rw [buy_assets_eq_steps (load_data user_id store) user_id aname asname
      today q noFaults store acct asset hA' hS' hq hfunds,
      buyAssetsSteps_existing (load_data user_id store) user_id
        acct.account_id asset.asset_id asset.name q
        (q * asset.unit_price) acct.current_balance asset.unit_price
        acct.currency today store invRow
        (List.any_eq_true.mpr ⟨acct, hmem, by simp⟩) hfind hnt]
    exact ⟨rfl, rfl⟩

/-- C8 witness: with Gold repriced from 70 to 75 in the store before the
submit rerun, the request charges the freshly re-read 75 per unit —
snapshot price 75, balance 1000 - 5 * 75 = 625 — not the 70 of the store
the earlier session was loaded from. -/
theorem buy_request_rereads_current_store_witness :
    ((buy_assets_request 1 (some "Main") (some "Gold") 5 "2025-01-01"
      noFaults exStoreRepriced).2.transactions.map
        (fun t => t.unit_price_at_transaction)) = [75] ∧
    ((buy_assets_request 1 (some "Main") (some "Gold") 5 "2025-01-01"
      noFaults exStoreRepriced).2.accounts.map
        (fun a => a.current_balance)) = [625] := by
  have h := (buy_request_rereads_current_store 1 "Main" "Gold"
    "2025-01-01" 5 exStoreRepriced exAccount
    { exGold with unit_price := 75 }
    (by norm_num [exStoreRepriced, update_asset_price, exStore,
      exAccount, exGold, List.filter, List.find?])
    (by norm_num [exStoreRepriced, update_asset_price, exStore, exGold,
      List.find?])
    (by norm_num)).2
    (by norm_num [exAccount, exGold]) exInvestmentRowRepriced
    (by norm_num [get_investments_by_user, exStoreRepriced,
      update_asset_price, exStore, exInvestment, exGold,
      exInvestmentRowRepriced, exInvestmentRow, List.find?, List.filter,
      List.filterMap])
    (by simp [exStoreRepriced, update_asset_price, exStore])
  constructor
  · rw [h.1]
    norm_num [exStoreRepriced, update_asset_price, exStore, exGold]
  · rw [h.2]
    norm_num [exStoreRepriced, update_asset_price, exStore, exAccount,
      exGold]

/-- C9: `delete_user_and_all_data` succeeds and afterwards no user,
account, portfolio, investment or transaction row carrying the deleted
user's id remains, while every row of another user survives. -/
theorem delete_user_leaves_no_user_rows (uid : Nat) (st : DBState) :
    (delete_user_and_all_data uid st).1 = true ∧
    ((delete_user_and_all_data uid st).2.users.all
      (fun u => u.user_id != uid)) = true ∧
    ((delete_user_and_all_data uid st).2.accounts.all
      (fun a => a.user_id != uid)) = true ∧
    ((delete_user_and_all_data uid st).2.portfolios.all
      (fun p => p.user_id != uid)) = true ∧
    ((delete_user_and_all_data uid st).2.investments.all
      (fun i => i.user_id != uid)) = true ∧
    ((delete_user_and_all_data uid st).2.transactions.all
      (fun t => t.user_id != uid)) = true ∧
    (∀ a ∈ st.accounts, a.user_id ≠ uid →
      a ∈ (delete_user_and_all_data uid st).2.accounts) ∧
    (∀ p ∈ st.portfolios, p.user_id ≠ uid →
      p ∈ (delete_user_and_all_data uid st).2.portfolios) ∧
    (∀ i ∈ st.investments, i.user_id ≠ uid →
      i ∈ (delete_user_and_all_data uid st).2.investments) ∧
    (∀ t ∈ st.transactions, t.user_id ≠ uid →
      t ∈ (delete_user_and_all_data uid st).2.transactions) := by
  refine ⟨rfl, ?_, ?_, ?_, ?_, ?_, ?_, ?_, ?_, ?_⟩ <;>
    simp [delete_user_and_all_data, List.all_eq_true, List.mem_filter] <;>
    exact fun x hx h => ⟨hx, h⟩

/-- C9 witness: deleting user 2 preserves user 1's account, and deleting
user 1 leaves no user row with id 1. -/
theorem delete_user_witness :
    exAccount ∈ (delete_user_and_all_data 2 exStore).2.accounts ∧
    ((delete_user_and_all_data 1 exStore).2.users.all
      (fun u => u.user_id != 1)) = true := by
  constructor
  · exact (delete_user_leaves_no_user_rows 2 exStore).2.2.2.2.2.2.1
      exAccount (by simp [exStore]) (by simp [exAccount])
  · exact (delete_user_leaves_no_user_rows 1 exStore).2.1

/-- C10: `update_portfolio` and `update_investment` called with every
optional field `None` return `False` and leave the store untouched. -/
theorem update_with_no_fields_is_noop (pid iid : Nat) (st : DBState) :
    update_portfolio pid none none st = (false, st) ∧
    update_investment iid none none none none none none none none none none
      st = (false, st) :=
  ⟨rfl, rfl⟩

end WMS
